import Mathlib

/-!
Verification of the CollabVM server core (src/CollabVmServer.hpp) against its
natural-language specification.  Every definition below is a shallow embedding
of a function or state machine of the C++ source; the theorems settle the
frozen claims about the specification.

Conventions of the embedding:
- machine integers become Nat/Int (no overflow is relevant to the claims);
- steady-clock instants become Nat ticks, passed to handlers as a `now`
  argument;
- each `StrandGuard`-owned piece of state becomes an explicit field of a
  state record, and a chain of `dispatch` hops becomes sequential
  composition (the hops execute in submission order on single owners);
- messages queued to sockets and cross-owner dispatches become explicit
  `Effect` values returned by the handler;
- external collaborators (database, CAPTCHA provider, PNG renderer, the
  transport) are oracles passed in as parameters.
-/

/-! ## Association-list helpers

The C++ `std::unordered_map`s are modelled as association lists without
duplicate keys.  `emplaceKey` only inserts when the key is absent and reports
whether it inserted, exactly like `std::unordered_map::emplace`. -/

def keys {α β : Type} (m : List (α × β)) : List α := m.map Prod.fst

def lookupKey {α β : Type} [DecidableEq α] : List (α × β) → α → Option β
  | [], _ => none
  | (k, v) :: rest, key => if k = key then some v else lookupKey rest key

def emplaceKey {α β : Type} [DecidableEq α] (m : List (α × β)) (k : α) (v : β) :
    List (α × β) × Bool :=
  if k ∈ keys m then (m, false) else (m ++ [(k, v)], true)

def eraseKey {α β : Type} [DecidableEq α] (m : List (α × β)) (k : α) :
    List (α × β) :=
  m.filter (fun p => decide (p.1 ≠ k))

def updateKey {α β : Type} [DecidableEq α] (m : List (α × β)) (k : α)
    (f : β → β) : List (α × β) :=
  m.map (fun p => if p.1 = k then (p.1, f p.2) else p)

/-! ## Recording settings (RecordingController::SetRecordingSettings)

Embedding of `RecordingController::SetRecordingSettings` from the source.
Durations and clock instants are measured in a single common tick unit, as
the C++ `operator<` on durations compares them after conversion to a common
period.  `stop_timer_.expiry() - now` is the remaining time of the current
recording file.  The observable outcome is whether the controller calls
`Start()` (an immediate rollover: the current file is closed and a new one is
opened) or only `UpdateKeyframeTimer()`. -/

inductive RecSettingsAction where
  | rollover
  | updateKeyframeTimer
  | nothing
  deriving DecidableEq, Repr

def SetRecordingSettings (isRecording : Bool) (timerExpiry now : Int)
    (fileDuration : Int) : RecSettingsAction :=
  -- file_duration_ and keyframe_interval_ are stored first (not observable
  -- for this claim), then:
  if ¬ isRecording then .nothing
  else if timerExpiry - now < fileDuration then .rollover
  else .updateKeyframeTimer

/-! ## Per-IP connection accounting (OnPreConnect / OnDisconnect)

The per-IP owner holds `IPData { connections }`.  `OnPreConnect` hops through
the settings owner and then the IP owner and executes
`if (max_connections_enabled && ++ip_data.connections > max) Close();` —
the built-in `&&` short-circuits, so the increment only happens when
max-connections is enabled.  `OnDisconnect` executes
`if (ip_data.connections > 0) --ip_data.connections;` unconditionally.

A trace of events for one IP is modelled as a list; each socket contributes
one pre-connect event (carrying the settings read on that hop) and, when its
connection ends, one disconnect event (the transport layer emits
`OnDisconnect` for every socket that completed `OnPreConnect`, including
sockets the cap check closed).  The counter is an `Int` so that "never
negative" is a meaningful statement.  A live session is a socket whose
pre-connect event has happened and whose disconnect event has not. -/

inductive IpEvent where
  | preConnect (sock : Nat) (maxEnabled : Bool) (maxConn : Int)
  | disconnect (sock : Nat)
  deriving DecidableEq, Repr

def ipStep (c : Int) : IpEvent → Int
  | .preConnect _ maxEnabled _ => if maxEnabled then c + 1 else c
  | .disconnect _ => if c > 0 then c - 1 else c

/-- Whether the pre-connect handler closes the socket: when the cap is
enabled the check uses the already-incremented counter; when it is disabled
the right operand of `&&` is not evaluated and the socket is accepted. -/
def ipPreConnectCloses (c : Int) (maxEnabled : Bool) (maxConn : Int) : Bool :=
  maxEnabled && decide (c + 1 > maxConn)

def runIpCounter (events : List IpEvent) : Int := events.foldl ipStep 0

def liveStep (live : List Nat) : IpEvent → List Nat
  | .preConnect s _ _ => s :: live
  | .disconnect s => live.erase s

def liveSessions (events : List IpEvent) : List Nat :=
  events.foldl liveStep []

/-- Well-formedness of an event trace for one IP: a socket pre-connects at
most once, and only a socket currently between its pre-connect and its
disconnect may disconnect. -/
def IpWF : List Nat → List IpEvent → Prop
  | _, [] => True
  | live, .preConnect s _ _ :: rest => s ∉ live ∧ IpWF (s :: live) rest
  | live, .disconnect s :: rest => s ∈ live ∧ IpWF (live.erase s) rest

/-! ## Per-socket send pipeline (QueueMessage / SendMessageCallback)

The per-socket pipeline owns `send_queue_` (a FIFO of shared message
handles) and the flag `sending_`.  A message carries a count of how many
times `CreateFrame` was called on it, so that "framed once" is a statement
of the model.  `QueueMessage` frames, then dispatches on the queue owner;
`SendMessageCallback` runs on write completion.  The write action handed to
`TSocket::WriteMessage` is the list of messages in the single write. -/

structure PipeMsg where
  id : Nat
  frames : Nat
  deriving DecidableEq, Repr

structure SendPipeState where
  queue : List PipeMsg
  sending : Bool
  deriving DecidableEq, Repr

/-- CreateFrame on a socket message. -/
def createFrame (m : PipeMsg) : PipeMsg := { m with frames := m.frames + 1 }

/-- Embedding of `CollabVmSocket::QueueMessage`: frame once, then either
start a send of just this message or push it.  Returns the new owner state
and the messages handed to `WriteMessage` (if a write was started). -/
def QueueMessage (m : PipeMsg) (s : SendPipeState) :
    SendPipeState × Option (List PipeMsg) :=
  let fm := createFrame m
  if s.sending then ({ s with queue := s.queue ++ [fm] }, none)
  else ({ s with sending := true }, some [fm])

/-- Embedding of `CollabVmSocket::SendMessageCallback`.  The Bool output is
whether the socket was closed (write error).  `SendMessage` pops the single
front message; `SendMessageBatch` drains the whole queue into one write. -/
def SendMessageCallback (isError : Bool) (s : SendPipeState) :
    SendPipeState × Option (List PipeMsg) × Bool :=
  if isError then (s, none, true)
  else
    match s.queue with
    | [] => ({ s with sending := false }, none, false)
    | [m] => ({ s with queue := [] }, some [m], false)
    | ms => ({ s with queue := [] }, some ms, false)

/-- Specification-side send pipeline, stated from the words of section 4.7 of
the spec: "QueueMessage(m): framed once; if not sending, set sending, start
send of just m; else push m to queue." -/
def specQueueMessage (m : PipeMsg) (s : SendPipeState) :
    SendPipeState × Option (List PipeMsg) :=
  if s.sending then
    ({ queue := s.queue ++ [createFrame m], sending := s.sending }, none)
  else ({ queue := s.queue, sending := true }, some [createFrame m])

/-- Specification-side write-completion handler, from the words of section
4.7: "On write completion: if queue empty, sending=false; if one, send it;
if many, batch-send all", and "any write error closes the socket". -/
def specSendCallback (isError : Bool) (s : SendPipeState) :
    SendPipeState × Option (List PipeMsg) × Bool :=
  if isError then (s, none, true)
  else if s.queue = [] then (⟨[], false⟩, none, false)
  else if s.queue.length = 1 then (⟨[], s.sending⟩, some s.queue, false)
  else (⟨[], s.sending⟩, some s.queue, false)

/-! ## Session store (CollabVmServer::CreateSession, InvalidateSession)

The sessions owner holds the map session-id → socket.  `CreateSession` runs
in that owner: the database mints `(correct_username, is_admin,
old_session_id, new_session_id)`; the socket is marked logged-in,
`SetSessionId` emplaces the new id, and when a prior session id exists and
is found in the table, `InvalidateSession()` is called on its socket. -/

structure SessionSocket where
  isLoggedIn : Bool
  isAdmin : Bool
  username : String
  deriving DecidableEq, Repr

/-- Embedding of `CollabVmSocket::InvalidateSession`.  Its entire body in the
source is a `// TODO:` comment: it performs no action at all. -/
def InvalidateSession (s : SessionSocket) : SessionSocket := s

structure DbSessionResult where
  correctUsername : String
  isAdmin : Bool
  oldSessionId : List Nat
  newSessionId : List Nat
  deriving DecidableEq, Repr

structure SessionsState where
  sockets : List (Nat × SessionSocket)
  sessions : List (List Nat × Nat)
  deriving DecidableEq, Repr

/-- Embedding of `CollabVmServer::CreateSession` (the body dispatched on the
sessions owner).  `sockId` is the socket performing the login; `db` is the
result of `db_.CreateSession`.  The `SetUserData` call's username-broadcast
side effects concern channels and are not relevant to the session-table
claim. -/
def CreateSession (st : SessionsState) (sockId : Nat) (db : DbSessionResult) :
    SessionsState :=
  if db.correctUsername.isEmpty then st
  else
    let sockets1 := updateKey st.sockets sockId (fun s =>
      { s with isLoggedIn := true, isAdmin := db.isAdmin,
               username := db.correctUsername })
    let sessions1 := (emplaceKey st.sessions db.newSessionId sockId).1
    if ¬ db.oldSessionId.isEmpty then
      match lookupKey sessions1 db.oldSessionId with
      | some oldSock =>
          { sockets := updateKey sockets1 oldSock InvalidateSession
            sessions := sessions1 }
      | none => { sockets := sockets1, sessions := sessions1 }
    else { sockets := sockets1, sessions := sessions1 }

/-! ## Request dispatcher (CollabVmSocket::HandleMessage)

State owned by or reachable from one socket, as needed by the dispatcher
claims.  The guest table maps usernames to socket handles with
case-insensitive keys (`CaseInsensitiveHasher` / `CaseInsensitiveComparator`
lower-case the string).  `vms` is the registry restricted to what the
handlers read here: per-VM existence and the DISALLOW_GUESTS setting. -/

structure CommonLimits where
  usernameChangeRateLimit : Nat
  chatRateLimit : Nat
  maxChatMessageLen : Nat
  deriving DecidableEq, Repr

/-- ASCII lower-casing of one character, as the case-insensitive hasher and
comparator apply per character. -/
def lowerChar (c : Char) : Char :=
  if 65 ≤ c.toNat ∧ c.toNat ≤ 90 then Char.ofNat (c.toNat + 32) else c

def ciKey (s : String) : List Char := s.data.map lowerChar

def guestsLookup (g : List (String × Nat)) (name : String) : Option Nat :=
  match g.find? (fun p => ciKey p.1 == ciKey name) with
  | some p => some p.2
  | none => none

def guestsEmplace (g : List (String × Nat)) (name : String) (sock : Nat) :
    List (String × Nat) × Bool :=
  if g.any (fun p => ciKey p.1 == ciKey name) then (g, false)
  else (g ++ [(name, sock)], true)

def guestsErase (g : List (String × Nat)) (name : String) :
    List (String × Nat) :=
  g.filter (fun p => !(ciKey p.1 == ciKey name))

structure SocketState where
  isLoggedIn : Bool
  isAdmin : Bool
  isCaptchaRequired : Bool
  isInGlobalChat : Bool
  isViewingVmList : Bool
  connectedVmId : Nat
  username : String
  lastChatMessage : Nat
  lastUsernameChange : Nat
  deriving DecidableEq, Repr

inductive ChatResponseCode where
  | userNotFound
  | userChatLimit
  | recipientChatLimit
  deriving DecidableEq, Repr

inductive ServerMsg where
  | connectSuccess (username : String) (captchaRequired : Bool)
  | connectFail
  | usernameTaken
  | chatMessageResponse (code : ChatResponseCode)
  | chatChannelId (id : Nat)
  | newChatChannel (channel : Nat) (text : String)
  deriving DecidableEq, Repr

/-- Observable actions of a handler: messages queued to this socket or to a
peer, and cross-owner dispatches whose details other owners carry out. -/
inductive Effect where
  | queueSelf (m : ServerMsg)
  | queueTo (sock : Nat) (m : ServerMsg)
  | removeVmListViewer
  | removeUserFromChannel (channel : Nat)
  | addUserToChannel (channel : Nat) (username : String)
  | broadcastUsernameChange (channel : Nat) (oldName newName : String)
  | requestTurnDispatch
  | voteDispatch (yes : Bool)
  | guacInstrDispatch
  | chatDispatch
  | generateUsernameDispatch
  deriving DecidableEq, Repr

structure HState where
  sock : SocketState
  guests : List (String × Nat)
  vms : List (Nat × Bool)
  deriving DecidableEq, Repr

inductive ChatDest where
  | newDirect (username : String)
  | direct (id : Nat)
  | vm (id : Nat)
  deriving DecidableEq, Repr

inductive ClientMsg where
  | connectToChannel (channelId : Nat)
  | captchaCompleted (token : String)
  | turnRequest
  | vote (yes : Bool)
  | guacInstr
  | changeUsername (newName : String)
  | chatMessage (textLen : Nat) (dest : ChatDest)
  deriving DecidableEq, Repr

def globalChannelId : Nat := 0

/-- Embedding of `SetUserData`: swap the owned username, then, when the old
name was non-empty and the socket is in a channel, broadcast a
`ChangeUsername(old,new)` through the VM channel (when the VM still exists)
and through the global chat room. -/
def setUserData (st : HState) (newName : String) : HState × List Effect :=
  let oldName := st.sock.username
  let sock1 : SocketState := { st.sock with username := newName }
  let effects : List Effect :=
    if ¬ oldName.isEmpty ∧ (sock1.connectedVmId ≠ 0 ∨ sock1.isInGlobalChat) then
      (if sock1.connectedVmId ≠ 0 ∧
          (lookupKey st.vms sock1.connectedVmId).isSome then
        [Effect.broadcastUsernameChange sock1.connectedVmId oldName newName]
      else []) ++
      (if sock1.isInGlobalChat then
        [Effect.broadcastUsernameChange globalChannelId oldName newName]
      else [])
    else []
  ({ st with sock := sock1 }, effects)

/-- Embedding of the inner `connect_to_channel` lambda: leave the VM list,
leave a previously connected VM channel, record the new channel id, queue
the connect response with chat history, and join the channel. -/
def connectBody (st : HState) (channelGetId : Nat) (username : String) :
    HState × List Effect :=
  let leaveEffects : List Effect :=
    if st.sock.isViewingVmList then [Effect.removeVmListViewer] else []
  let sock1 : SocketState := { st.sock with isViewingVmList := false }
  let removeEffects : List Effect :=
    if sock1.connectedVmId ≠ 0 ∧
        (lookupKey st.vms sock1.connectedVmId).isSome then
      [Effect.removeUserFromChannel sock1.connectedVmId]
    else []
  let sock2 := { sock1 with connectedVmId := channelGetId }
  ({ st with sock := sock2 },
    leaveEffects ++ removeEffects ++
      [Effect.queueSelf (.connectSuccess username st.sock.isCaptchaRequired),
      Effect.addUserToChannel channelGetId username])

/-- Embedding of the CONNECT_TO_CHANNEL case of `HandleMessage`.  The source
has no captcha gate in this case.  When the socket has no username yet,
`GenerateUsername` allocates a `guest<N>` name and then joins; no claim
exercises that branch, so it stays an opaque dispatch. -/
def connectToChannel (st : HState) (channelId : Nat) : HState × List Effect :=
  if st.sock.username.isEmpty then (st, [Effect.generateUsernameDispatch])
  else if channelId = globalChannelId then
    if st.sock.isInGlobalChat then (st, [])
    else
      let st1 := { st with sock := { st.sock with isInGlobalChat := true } }
      connectBody st1 globalChannelId st.sock.username
  else
    match lookupKey st.vms channelId with
    | none => (st, [Effect.queueSelf .connectFail])
    | some disallowGuests =>
        if disallowGuests ∧ ¬ st.sock.isLoggedIn then
          (st, [Effect.queueSelf .connectFail])
        else connectBody st channelId st.sock.username

/-- Embedding of the CHANGE_USERNAME case of `HandleMessage`: gates are, in
source order, captcha-required, logged-in, the rate limit against
`last_username_change_`, and `ValidateUsername`; a rename to the identical
current username returns without any action; otherwise the guest table is
updated atomically (emplace new, then erase old) and `SetUserData` runs. -/
def changeUsername (L : CommonLimits) (validateUsername : String → Bool)
    (now : Nat) (selfId : Nat) (st : HState) (newName : String) :
    HState × List Effect :=
  if st.sock.isCaptchaRequired then (st, [])
  else if st.sock.isLoggedIn then (st, [])
  else if now - st.sock.lastUsernameChange < L.usernameChangeRateLimit then
    (st, [])
  else if ¬ validateUsername newName then (st, [])
  else if st.sock.username = newName then (st, [])
  else
    let emp := guestsEmplace st.guests newName selfId
    if ¬ emp.2 then (st, [Effect.queueSelf .usernameTaken])
    else
      let guests2 := guestsErase emp.1 st.sock.username
      setUserData { st with guests := guests2 } newName

/-- Embedding of `CollabVmSocket::HandleMessage` for the message kinds the
claims are about.  `captchaVerify` is the external CAPTCHA provider;
`validateUsername` is `Common::ValidateUsername`; `now` is the steady
clock. -/
def HandleMessage (L : CommonLimits) (validateUsername : String → Bool)
    (captchaVerify : String → Bool) (now : Nat) (selfId : Nat)
    (st : HState) : ClientMsg → HState × List Effect
  | .connectToChannel channelId => connectToChannel st channelId
  | .captchaCompleted token =>
      ({ st with sock :=
          { st.sock with isCaptchaRequired := !captchaVerify token } }, [])
  | .turnRequest =>
      if st.sock.connectedVmId = 0 ∨ st.sock.isCaptchaRequired then (st, [])
      else
        match lookupKey st.vms st.sock.connectedVmId with
        | none => (st, [])
        | some _ => (st, [Effect.requestTurnDispatch])
  | .vote yes =>
      if st.sock.connectedVmId = 0 ∨ st.sock.isCaptchaRequired then (st, [])
      else
        match lookupKey st.vms st.sock.connectedVmId with
        | none => (st, [])
        | some _ => (st, [Effect.voteDispatch yes])
  | .guacInstr =>
      if st.sock.connectedVmId = 0 ∨ st.sock.isCaptchaRequired then (st, [])
      else
        match lookupKey st.vms st.sock.connectedVmId with
        | none => (st, [])
        | some _ => (st, [Effect.guacInstrDispatch])
  | .changeUsername newName =>
      changeUsername L validateUsername now selfId st newName
  | .chatMessage textLen _ =>
      if st.sock.isCaptchaRequired then (st, [])
      else if textLen = 0 ∨ textLen > L.maxChatMessageLen ∨
          now - st.sock.lastChatMessage < L.chatRateLimit then (st, [])
      else
        let st1 := { st with sock := { st.sock with lastChatMessage := now } }
        if st1.sock.username.isEmpty then (st1, [])
        else (st1, [Effect.chatDispatch])

/-- The message kinds the spec's capability table gates on "captcha not
required". -/
def CaptchaGated : ClientMsg → Prop
  | .changeUsername _ => True
  | .chatMessage _ _ => True
  | .turnRequest => True
  | .vote _ => True
  | .guacInstr => True
  | _ => False

/-! ## Direct chat setup (CHAT_MESSAGE, NEW_DIRECT destination)

Embedding of the NEW_DIRECT chain of the CHAT_MESSAGE case, from the
`chat_rooms_.dispatch` onward (the guest-table lookup has already resolved
the recipient socket).  Per participant the chat-rooms owner holds the map
local-id → (peer socket, peer-side id) and the session owns the monotonic
counter `chat_rooms_id_` (initialised to 1).  The three hops of the source
run sequentially on their owners. -/

structure ChatPeer where
  rooms : List (Nat × Nat × Nat)
  nextId : Nat
  deriving DecidableEq, Repr

structure NewDirectResult where
  sender : ChatPeer
  recipient : ChatPeer
  senderMsgs : List ServerMsg
  recipientMsgs : List ServerMsg
  deriving DecidableEq, Repr

/-- Rewrite the peer-side id stored under local id `k`. -/
def setPeerId (rooms : List (Nat × Nat × Nat)) (k : Nat) (pid : Nat) :
    List (Nat × Nat × Nat) :=
  rooms.map (fun r => if r.1 = k then (r.1, r.2.1, pid) else r)

/-- Embedding of the NEW_DIRECT chain (source lines 531-655).  Note the
source stores `std::make_pair(recipient, sender_id)` in the recipient's own
table — the shared pointer stored as "peer" is the recipient itself — which
the embedding reproduces verbatim. -/
def newDirectChat (text : String) (senderHandle : Nat) (sender : ChatPeer)
    (recipHandle : Nat) (recipient : ChatPeer) : NewDirectResult :=
  if 10 ≤ sender.rooms.length then
    ⟨sender, recipient, [.chatMessageResponse .userChatLimit], []⟩
  else
    match sender.rooms.find? (fun r => r.2.1 == recipHandle) with
    | some r => ⟨sender, recipient, [.chatChannelId r.2.2], []⟩
    | none =>
      let senderId := sender.nextId
      let sender1 : ChatPeer :=
        ⟨(emplaceKey sender.rooms senderId (recipHandle, 0)).1,
          sender.nextId + 1⟩
      match recipient.rooms.find? (fun r => r.2.1 == senderHandle) with
      | some r2 =>
        if r2.2.2 = 0 then
          ⟨sender1,
            { recipient with rooms := setPeerId recipient.rooms r2.1 senderId },
            [], []⟩
        else ⟨sender1, recipient, [.chatChannelId senderId], []⟩
      | none =>
        if 10 ≤ recipient.rooms.length then
          ⟨{ sender1 with rooms := eraseKey sender1.rooms senderId },
            recipient, [.chatMessageResponse .recipientChatLimit], []⟩
        else
          let recipientLocalId := recipient.nextId
          let recipient1 : ChatPeer :=
            ⟨(emplaceKey recipient.rooms recipientLocalId
                (recipHandle, senderId)).1,
              recipient.nextId + 1⟩
          match lookupKey sender1.rooms senderId with
          | some pr =>
            if pr.2 = 0 then
              ⟨{ sender1 with
                  rooms := setPeerId sender1.rooms senderId recipientLocalId },
                recipient1,
                [.chatChannelId senderId,
                  .newChatChannel recipientLocalId text],
                [.newChatChannel recipientLocalId text]⟩
            else ⟨sender1, recipient1, [], []⟩
          | none => ⟨sender1, recipient1, [], []⟩

/-! ## Recording playback preview (CollabVmSocket::SendRecordingPreviews)

Embedding of `SendRecordingPreviews`.  The database
(`db_.GetRecordingFilePath`), the filesystem and the PNG renderer
(`GuacamoleScreenshot`) are external; they appear as oracles.  A recording
file is its header plus the list of serialized messages after the header;
byte offsets in keyframes are modelled as indices into that list.  A
`corrupt` entry stands for a message whose deserialization throws (the
`kj::Exception` caught inside `ReadGuacamoleInstruction`); a file whose
header does not deserialize throws from the `RecordingFileStream`
constructor into the outer `catch`.  The loops are written with explicit
fuel; running out of fuel yields `none`, so `none` for every fuel is
non-termination of the source loop. -/

inductive GuacSInstr where
  | sync (ts : Nat)
  | nonSync
  deriving DecidableEq, Repr

inductive FileMsg where
  | guac (g : GuacSInstr)
  | nonGuac
  | corrupt
  deriving DecidableEq, Repr

structure Keyframe where
  fileOffset : Nat
  timestamp : Nat
  deriving DecidableEq, Repr

structure RecFile where
  headerOk : Bool
  startTime : Nat
  stopTime : Nat
  keyframes : List Keyframe
  keyframesCount : Nat
  messages : List FileMsg
  deriving DecidableEq, Repr

/-- Result of `GetRecordingFilePath(vm, t, t)` together with whether the
returned path can be opened and the file behind it. -/
structure DbFileResult where
  pathEmpty : Bool
  openable : Bool
  fileStart : Nat
  fileStop : Nat
  file : RecFile
  deriving DecidableEq, Repr

def RecordingDb := Nat → DbFileResult

structure PreviewRequest where
  vmId : Nat
  startTime : Nat
  stopTime : Nat
  width : Nat
  height : Nat
  timeInterval : Nat
  deriving DecidableEq, Repr

inductive OutMsg where
  | preview (timestamp : Nat)
  | result (success : Bool)
  deriving DecidableEq, Repr

/-- The mutable part of `RecordingFileStream`: the snapshot of the keyframe
index, the `keyframe_begin_` iterator (an index into that snapshot), the
stream position (an index into the message list) and the recording clock. -/
structure FileStreamState where
  keyframes : List Keyframe
  keyframeBegin : Nat
  pos : Nat
  currentTimestamp : Nat
  deriving DecidableEq, Repr

/-- Constructor of `RecordingFileStream`: read the header, snapshot the
first `keyframesCount` keyframes, start reading after the header. -/
def initFileStream (file : RecFile) : FileStreamState :=
  ⟨file.keyframes.take file.keyframesCount, 0, 0, file.startTime⟩

/-- GetNextFileTimestamp. -/
def nextFileTimestamp (file : RecFile) : Nat :=
  max (file.startTime + 1) file.stopTime

/-- SeekToKeyframe on the keyframe at index `k` of the snapshot (the C++
dereferences the iterator; an out-of-range index would be undefined there
and is given the all-zero keyframe here). -/
def seekToKeyframe (st : FileStreamState) (k : Nat) : FileStreamState :=
  let kf := st.keyframes.getD k ⟨0, 0⟩
  { st with pos := kf.fileOffset, keyframeBegin := k,
            currentTimestamp := kf.timestamp }

/-- NextKeyframe: advance to the following keyframe when more than one
remains from `keyframe_begin_`, else record the next file timestamp and
report false. -/
def nextKeyframe (file : RecFile) (st : FileStreamState) :
    Bool × FileStreamState :=
  if 1 < st.keyframes.length - st.keyframeBegin then
    (true, seekToKeyframe st (st.keyframeBegin + 1))
  else
    (false, { st with currentTimestamp := nextFileTimestamp file })

/-- Scan forward for the next GUAC_INSTR message, as the read loop of
`ReadGuacamoleInstruction` does; returns the instruction and how many
messages were consumed, or `none` at end of file or on a message whose
deserialization throws. -/
def readGuacAux : List FileMsg → Option (GuacSInstr × Nat)
  | [] => none
  | .corrupt :: _ => none
  | .nonGuac :: rest =>
      match readGuacAux rest with
      | some (g, n) => some (g, n + 1)
      | none => none
  | .guac g :: _ => some (g, 1)

/-- ReadGuacamoleInstruction: on success the stream advances and a SYNC
instruction updates the recording clock. -/
def readGuacInstruction (file : RecFile) (st : FileStreamState) :
    Option GuacSInstr × FileStreamState :=
  match readGuacAux (file.messages.drop st.pos) with
  | none => (none, st)
  | some (g, n) =>
      let newTs :=
        match g with
        | .sync ts => ts
        | .nonSync => st.currentTimestamp
      (some g, { st with pos := st.pos + n, currentTimestamp := newTs })

/-- SeekToTimestamp: reject timestamps outside the header range; rewind the
keyframe cursor when seeking backwards; then search the keyframes before
`keyframe_begin_` (via `std::lower_bound` over the reversed range, i.e. the
first keyframe scanning backwards whose timestamp is at most the target)
and seek when the found keyframe is ahead of the clock or the target is
behind it. -/
def seekToTimestamp (file : RecFile) (st : FileStreamState) (ts : Nat) :
    Bool × FileStreamState :=
  if ts < file.startTime ∨ file.stopTime < ts then (false, st)
  else
    let st1 :=
      if ts < st.currentTimestamp then { st with keyframeBegin := 0 } else st
    match (List.range st1.keyframeBegin).reverse.find?
        (fun i => decide ((st1.keyframes.getD i ⟨0, 0⟩).timestamp ≤ ts)) with
    | none => (true, st1)
    | some i =>
        if st1.currentTimestamp < (st1.keyframes.getD i ⟨0, 0⟩).timestamp ∨
            ts < st1.currentTimestamp then
          (true, seekToKeyframe st1 (i + 1))
        else (true, st1)

/-- The screenshot-accumulation do-while loop: read instructions (feeding
the off-screen canvas, which is external) until the recording clock passes
the cursor (time-interval mode) and has moved off the initial timestamp, or
the file gives no further instruction.  Fuel bounds the scan; each
successful read consumes at least one message, so `messages.length + 1`
fuel is never exhausted. -/
def innerRead (req : PreviewRequest) (file : RecFile) :
    Nat → FileStreamState → Nat → Nat → Bool → Bool × FileStreamState
  | 0, st, _, _, oneFrame => (oneFrame, st)
  | fuel + 1, st, initialTs, current, oneFrame =>
      match readGuacInstruction file st with
      | (none, st2) => (oneFrame, st2)
      | (some _, st2) =>
          if (req.timeInterval ≠ 0 ∧ st2.currentTimestamp < current) ∨
              initialTs = st2.currentTimestamp then
            innerRead req file fuel st2 initialTs current true
          else (true, st2)

/-- The per-file `while (current_timestamp < stopTime)` loop of the `try`
block.  Returns the cursor value at exit and the preview messages emitted
(each carrying the recording clock at which the thumbnail was rendered).
The `keyframe_changed` screenshot reset only affects canvas contents, which
are external to the model. -/
def middleLoop (req : PreviewRequest) (file : RecFile) :
    Nat → FileStreamState → Nat → Option (Nat × List OutMsg)
  | 0, _, _ => none
  | fuel + 1, st, current =>
      if req.stopTime ≤ current then some (current, [])
      else
        match innerRead req file (file.messages.length + 1) st
            st.currentTimestamp current false with
        | (false, _) => some (nextFileTimestamp file, [])
        | (true, st2) =>
          if req.timeInterval ≠ 0 then
            match seekToTimestamp file st2
                (st2.currentTimestamp + req.timeInterval) with
            | (false, _) =>
                some (st2.currentTimestamp + req.timeInterval,
                  [OutMsg.preview st2.currentTimestamp])
            | (true, st3) =>
                match middleLoop req file fuel st3
                    (st2.currentTimestamp + req.timeInterval) with
                | none => none
                | some (c, outs) =>
                    some (c, OutMsg.preview st2.currentTimestamp :: outs)
          else
            match nextKeyframe file st2 with
            | (false, st3) =>
                some (st3.currentTimestamp,
                  [OutMsg.preview st2.currentTimestamp])
            | (true, st3) =>
                match middleLoop req file fuel st3 st3.currentTimestamp with
                | none => none
                | some (c, outs) =>
                    some (c, OutMsg.preview st2.currentTimestamp :: outs)

/-- The outer `while (current_timestamp < request.getStopTime())` loop:
query the database for the file covering the cursor; an empty path ends
with `result(false)`; an unopenable file moves the cursor to the file's
stop time, or ends with `result(false)` when that is zero; a file whose
header throws moves the cursor to the stop time or start+1; otherwise the
file is replayed and the cursor continues from where the replay left it. -/
def outerLoop (db : RecordingDb) (req : PreviewRequest) :
    Nat → Nat → Nat → List OutMsg → Option (List OutMsg)
  | 0, _, _, _ => none
  | fuel + 1, mfuel, current, acc =>
      if req.stopTime ≤ current then some (acc ++ [.result true])
      else if (db current).pathEmpty then some (acc ++ [.result false])
      else if ¬ (db current).openable then
        if (db current).fileStop ≠ 0 then
          outerLoop db req fuel mfuel (db current).fileStop acc
        else some (acc ++ [.result false])
      else if ¬ (db current).file.headerOk then
        outerLoop db req fuel mfuel
          (if (db current).fileStop ≠ 0 then (db current).fileStop
           else (db current).fileStart + 1) acc
      else
        match middleLoop req (db current).file mfuel
            ((seekToTimestamp (db current).file
                (initFileStream (db current).file) current).2) current with
        | none => none
        | some res => outerLoop db req fuel mfuel res.1 (acc ++ res.2)

/-- Embedding of `SendRecordingPreviews`: a zero start or stop time is
rejected with `result(false)`; otherwise the cursor starts at the request's
start time. -/
def SendRecordingPreviews (db : RecordingDb) (req : PreviewRequest)
    (outerFuel middleFuel : Nat) : Option (List OutMsg) :=
  if req.startTime = 0 ∨ req.stopTime = 0 then some [.result false]
  else outerLoop db req outerFuel middleFuel req.startTime []

/-- Formalisation of claim C9 as stated: for every database and every
request the handler terminates (some fuel suffices). -/
def PreviewAlwaysTerminates : Prop :=
  ∀ (db : RecordingDb) (req : PreviewRequest) (middleFuel : Nat),
    ∃ (outerFuel : Nat) (out : List OutMsg),
      SendRecordingPreviews db req outerFuel middleFuel = some out

/-! ## Shared concrete instances used by witnesses and counterexamples -/

def exLimits : CommonLimits := ⟨5000, 250, 100⟩

def exValidate : String → Bool := fun _ => true

def exVerify : String → Bool := fun _ => true

def c1Sock : SocketState :=
  ⟨false, false, true, false, false, 0, "guest1000", 0, 0⟩

def c1St : HState := ⟨c1Sock, [("guest1000", 1)], []⟩

def c1Res : HState × List Effect :=
  HandleMessage exLimits exValidate exVerify 0 1 c1St (.connectToChannel 0)

def c2Alice : SessionSocket := ⟨true, false, "alice"⟩

def c2Fresh : SessionSocket := ⟨false, false, ""⟩

def c2Before : SessionsState := ⟨[(1, c2Alice), (2, c2Fresh)], [([10], 1)]⟩

def c2Db : DbSessionResult := ⟨"alice", false, [10], [20]⟩

def c2After : SessionsState := CreateSession c2Before 2 c2Db

def c3Sock : SocketState := ⟨false, false, false, false, false, 0, "guest77", 0, 0⟩

def c3St : HState := ⟨c3Sock, [("guest77", 7)], []⟩

def c3Res1 : HState × List Effect :=
  HandleMessage exLimits exValidate exVerify 5000 7 c3St (.changeUsername "alpha")

def c3Res2 : HState × List Effect :=
  HandleMessage exLimits exValidate exVerify 5001 7 c3Res1.1 (.changeUsername "beta")

def c5Sender : ChatPeer := ⟨[], 1⟩

def c5Recipient : ChatPeer :=
  ⟨[(1, 101, 1), (2, 102, 2), (3, 103, 3), (4, 104, 4), (5, 105, 5),
    (6, 106, 6), (7, 107, 7), (8, 108, 8), (9, 109, 9), (10, 110, 10)], 11⟩

def c8Sock : SocketState := ⟨false, false, false, false, false, 0, "sam", 0, 0⟩

def c8St : HState := ⟨c8Sock, [("sam", 3)], []⟩

def ipTrace : List IpEvent :=
  [.preConnect 1 true 1, .preConnect 2 true 1, .disconnect 2, .disconnect 1]

/-- Every pre-connect event of the trace saw max-connections enabled, so its
increment was not skipped by the short-circuiting `&&`. -/
def AllCapEnabled : List IpEvent → Prop
  | [] => True
  | .preConnect _ maxEnabled _ :: rest => maxEnabled = true ∧ AllCapEnabled rest
  | .disconnect _ :: rest => AllCapEnabled rest

/-- One socket pre-connects while max-connections is disabled: the counter
stays 0 although one session is live. -/
def ipBadTrace : List IpEvent := [.preConnect 1 false 10]

/-- Progress conditions on the data the preview walk consumes: every file the
database yields for a cursor position strictly advances the cursor — an
unopenable file only when its stop time exceeds the cursor (a zero stop
terminates with a failure result anyway), a file with an unreadable header
only when its stop time (or start+1, when the stop is zero) exceeds the
cursor, and a replayed file leaves the middle loop with a larger cursor.
The source does not establish these by itself; they are the amendment claim
C9 needs. -/
def PreviewProgress (db : RecordingDb) (req : PreviewRequest) (mfuel : Nat) :
    Prop :=
  (∀ t, t < req.stopTime → (db t).pathEmpty = false →
    (db t).openable = false → (db t).fileStop ≠ 0 → t < (db t).fileStop) ∧
  (∀ t, t < req.stopTime → (db t).pathEmpty = false →
    (db t).openable = true → (db t).file.headerOk = false →
    t < (if (db t).fileStop ≠ 0 then (db t).fileStop
         else (db t).fileStart + 1)) ∧
  (∀ t, t < req.stopTime → (db t).pathEmpty = false →
    (db t).openable = true → (db t).file.headerOk = true →
    ∃ res, middleLoop req (db t).file mfuel
        ((seekToTimestamp (db t).file (initFileStream (db t).file) t).2) t
        = some res ∧ t < res.1)

def c9BadFile : RecFile := ⟨true, 0, 0, [], 0, []⟩

/-- A database whose file for cursor 500 is unopenable with stop time 500:
the open-failure path sets the cursor to 500 again, for ever. -/
def c9BadDb : RecordingDb := fun _ => ⟨false, false, 0, 500, c9BadFile⟩

def c9BadReq : PreviewRequest := ⟨3, 500, 1000, 64, 48, 250⟩

/-- A database returning the empty path everywhere (no recording stored). -/
def c9EmptyDb : RecordingDb := fun _ => ⟨true, false, 0, 0, c9BadFile⟩

def c9Req : PreviewRequest := ⟨1, 5, 3, 64, 48, 0⟩

/-! ## Helper lemmas -/

theorem eraseKey_emplaceKey {α β : Type} [DecidableEq α]
    (m : List (α × β)) (k : α) (v : β) (h : k ∉ keys m) :
    eraseKey (emplaceKey m k v).1 k = m := by
  simp only [emplaceKey, if_neg h]
  simp only [eraseKey, List.filter_append]
  have h1 : m.filter (fun p => decide (p.1 ≠ k)) = m :=
    List.filter_eq_self.mpr (fun p hp => by
      simp only [decide_eq_true_eq]
      intro hk
      exact h (hk ▸ List.mem_map_of_mem Prod.fst hp))
  have h2 : List.filter (fun p => decide (p.1 ≠ k)) [(k, v)] = [] := by simp
  rw [h1, h2, List.append_nil]

theorem lookupKey_updateKey_ne {α β : Type} [DecidableEq α]
    (m : List (α × β)) (k : α) (f : β → β) (other : α) (h : other ≠ k) :
    lookupKey (updateKey m k f) other = lookupKey m other := by
  induction m with
  | nil => rfl
  | cons p rest ih =>
    rcases p with ⟨k0, v0⟩
    simp only [updateKey, List.map_cons]
    by_cases hk : k0 = k
    · rw [if_pos hk]
      have hne : ¬ (k0 = other) := fun hh => h (hh.symm.trans hk)
      simp only [lookupKey]
      rw [if_neg hne, if_neg hne]
      exact ih
    · rw [if_neg hk]
      simp only [lookupKey]
      by_cases ho : k0 = other
      · rw [if_pos ho, if_pos ho]
      · rw [if_neg ho, if_neg ho]
        exact ih

theorem updateKey_invalidate (m : List (Nat × SessionSocket)) (k : Nat) :
    updateKey m k InvalidateSession = m := by
  simp [updateKey, InvalidateSession]

theorem ipCounter_nonneg_aux (events : List IpEvent) :
    ∀ c : Int, 0 ≤ c → 0 ≤ events.foldl ipStep c := by
  induction events with
  | nil => intro c hc; exact hc
  | cons e rest ih =>
    intro c hc
    rw [List.foldl_cons]
    apply ih
    cases e with
    | preConnect s en mx =>
      cases en <;> simp [ipStep] <;> omega
    | disconnect s =>
      simp only [ipStep]
      split <;> omega

theorem ipCounter_eq_live_aux (events : List IpEvent) :
    ∀ (live : List Nat), IpWF live events → AllCapEnabled events →
      events.foldl ipStep (live.length : Int) =
        ((events.foldl liveStep live).length : Int) := by
  induction events with
  | nil =>
    intro live _ _
    rfl
  | cons e rest ih =>
    intro live hwf hcap
    cases e with
    | preConnect s en mx =>
      obtain ⟨hnotin, hwf2⟩ := hwf
      obtain ⟨hen, hcap2⟩ := hcap
      subst hen
      have hstep : ipStep (live.length : Int) (.preConnect s true mx) =
          ((s :: live).length : Int) := by
        simp [ipStep]
      rw [List.foldl_cons, hstep]
      exact ih (s :: live) hwf2 hcap2
    | disconnect s =>
      obtain ⟨hin, hwf2⟩ := hwf
      have hpos : (0 : Int) < (live.length : Int) := by
        exact_mod_cast List.length_pos.mpr (List.ne_nil_of_mem hin)
      have hcast : (live.length : Int) - 1 = ((live.erase s).length : Int) := by
        have h1 : (live.erase s).length = live.length - 1 :=
          List.length_erase_of_mem hin
        have h2 : 1 ≤ live.length :=
          List.length_pos.mpr (List.ne_nil_of_mem hin)
        omega
      have hstep : ipStep (live.length : Int) (.disconnect s) =
          ((live.erase s).length : Int) := by
        simp only [ipStep, if_pos hpos]
        exact hcast
      rw [List.foldl_cons, hstep]
      exact ih (live.erase s) hwf2 hcap

/-! ## Claim C1 -/

/-- Claim C1, counterexample to the claim as stated: a session whose
captcha-required flag is set sends connect-to-channel for the global lobby;
the handler is not dropped — the socket joins the global chat (state
change) and messages are queued (connect response, join broadcast).  The
CONNECT_TO_CHANNEL case of `HandleMessage` has no captcha gate in the
source. -/
theorem C1_counterexample :
    c1St.sock.isCaptchaRequired = true ∧
    c1Res.1.sock.isInGlobalChat = true ∧
    c1Res.2 ≠ [] := by
  refine ⟨rfl, rfl, ?_⟩
  decide

/-- Claim C1, amended: for every session whose captcha-required flag is set,
an inbound change-username, chat-message, turn-request, vote, or guac-instr
message is silently dropped (state unchanged, no effect and no queued
message); connect-to-channel, by contrast, is not captcha-gated. -/
theorem C1_amended (L : CommonLimits) (validate cv : String → Bool)
    (now selfId : Nat) (st : HState) (m : ClientMsg)
    (hc : st.sock.isCaptchaRequired = true) (hm : CaptchaGated m) :
    HandleMessage L validate cv now selfId st m = (st, []) := by
  cases m with
  | connectToChannel channelId => exact absurd hm (by simp [CaptchaGated])
  | captchaCompleted token => exact absurd hm (by simp [CaptchaGated])
  | turnRequest => simp [HandleMessage, hc]
  | vote yes => simp [HandleMessage, hc]
  | guacInstr => simp [HandleMessage, hc]
  | changeUsername newName => simp [HandleMessage, changeUsername, hc]
  | chatMessage textLen dest => simp [HandleMessage, hc]

/-- Claim C1 witness: the amended theorem applied to a concrete
captcha-required session and a turn request. -/
theorem C1_witness :
    c1St.sock.isCaptchaRequired = true ∧
    CaptchaGated ClientMsg.turnRequest ∧
    HandleMessage exLimits exValidate exVerify 0 1 c1St .turnRequest =
      (c1St, []) :=
  ⟨rfl, trivial, C1_amended exLimits exValidate exVerify 0 1 c1St .turnRequest
    rfl trivial⟩

/-! ## Claim C2 -/

/-- Claim C2 (a code bug): `InvalidateSession` is an empty TODO stub, so a
successful login that finds a live prior session for the same username
leaves every other socket — in particular the prior session's socket —
completely untouched: nothing is marked to close or disconnect, and the
username then has two live sessions.  This theorem states the code's actual
behaviour: `CreateSession` never alters any socket other than the one
logging in. -/
theorem C2_invalidate_noop (st : SessionsState) (sockId : Nat)
    (db : DbSessionResult) (other : Nat) (h : other ≠ sockId) :
    lookupKey (CreateSession st sockId db).sockets other =
      lookupKey st.sockets other := by
  unfold CreateSession
  by_cases he : db.correctUsername.isEmpty
  · simp only [he, if_pos]
  · rw [if_neg he]
    by_cases ho : ¬ db.oldSessionId.isEmpty
    · rw [if_pos ho]
      cases hl : lookupKey (emplaceKey st.sessions db.newSessionId sockId).1
          db.oldSessionId with
      | none => simp only [hl, lookupKey_updateKey_ne _ _ _ _ h]
      | some oldSock =>
          simp only [hl, updateKey_invalidate,
            lookupKey_updateKey_ne _ _ _ _ h]
    · rw [if_neg ho]
      simp only [lookupKey_updateKey_ne _ _ _ _ h]

/-- Claim C2 witness: concrete second login for "alice" (socket 2) while
socket 1 holds a live "alice" session; socket 1 is untouched. -/
theorem C2_witness :
    (1 : Nat) ≠ 2 ∧
    lookupKey c2After.sockets 1 = lookupKey c2Before.sockets 1 :=
  ⟨by decide, C2_invalidate_noop c2Before 2 c2Db 1 (by decide)⟩

/-! ## Claim C3 -/

/-- Claim C3 (a code bug): `last_username_change_` is read by the rate-limit
check but never written anywhere in the source, so an accepted username
change does not start a rate-limit window.  Concretely: a rename accepted
at t = 5000 ms leaves `last_username_change_` at its initial value 0, and a
second valid rename only 1 ms later is accepted as well (the guest table
changes again), where the claim requires it to be silently dropped. -/
theorem C3_code_bug_evidence :
    c3Res1.1.sock.username = "alpha" ∧
    c3Res1.1.sock.lastUsernameChange = 0 ∧
    c3Res1.1.guests = [("alpha", 7)] ∧
    c3Res2.1.sock.username = "beta" ∧
    c3Res2.1.guests = [("beta", 7)] := by
  refine ⟨?_, ?_, ?_, ?_, ?_⟩ <;> decide

/-! ## Claim C4 -/

/-- Claim C4, counterexample to the claim as stated: with a recording in
progress, remaining file time 5 and new file duration 5 (remaining ≥ new
duration), the claim requires an immediate rollover, but the source only
resets the keyframe timer (`expiration < file_duration` is false). -/
theorem C4_counterexample :
    SetRecordingSettings true 5 0 5 = .updateKeyframeTimer ∧
    ¬ ((5 : Int) - 0 < 5) := by
  exact ⟨rfl, by decide⟩

/-- Claim C4, amended: while a recording is in progress, applying recording
settings rolls the recording over immediately exactly when the remaining
time of the current file is strictly less than the new file duration; when
the remaining time is at least the new file duration only the keyframe
timer is reset. -/
theorem C4_amended (timerExpiry now fileDuration : Int) :
    SetRecordingSettings true timerExpiry now fileDuration =
      (if timerExpiry - now < fileDuration then RecSettingsAction.rollover
       else RecSettingsAction.updateKeyframeTimer) := by
  simp [SetRecordingSettings]

/-! ## Claim C5 -/

/-- Claim C5: when a new-direct setup reaches a recipient whose chat-rooms
table is full (10 entries) and which has no existing room with the sender,
the sender receives RECIPIENT_CHAT_LIMIT and the pending sender row is
rolled back, leaving the sender's chat-rooms table exactly as before the
request; the recipient's table is also unchanged. -/
theorem C5_confirmed (text : String) (senderHandle : Nat) (sender : ChatPeer)
    (recipHandle : Nat) (recipient : ChatPeer)
    (h1 : sender.rooms.length < 10)
    (h2 : sender.rooms.find? (fun r => r.2.1 == recipHandle) = none)
    (h3 : recipient.rooms.find? (fun r => r.2.1 == senderHandle) = none)
    (h4 : 10 ≤ recipient.rooms.length)
    (h5 : sender.nextId ∉ keys sender.rooms) :
    (newDirectChat text senderHandle sender recipHandle recipient).sender.rooms
        = sender.rooms ∧
    (newDirectChat text senderHandle sender recipHandle recipient).recipient
        = recipient ∧
    (newDirectChat text senderHandle sender recipHandle recipient).senderMsgs
        = [.chatMessageResponse .recipientChatLimit] ∧
    (newDirectChat text senderHandle sender recipHandle recipient).recipientMsgs
        = [] := by
  unfold newDirectChat
  rw [if_neg (by omega), h2]
  simp only [h3]
  rw [if_pos h4]
  have hre : eraseKey (emplaceKey sender.rooms sender.nextId (recipHandle, 0)).1
      sender.nextId = sender.rooms := eraseKey_emplaceKey _ _ _ h5
  exact ⟨hre, rfl, rfl, rfl⟩

/-- Claim C5 witness: a sender with an empty table and a recipient already
holding 10 direct-chat rows. -/
theorem C5_witness :
    c5Sender.rooms.length < 10 ∧
    c5Sender.rooms.find? (fun r => r.2.1 == 60) = none ∧
    c5Recipient.rooms.find? (fun r => r.2.1 == 50) = none ∧
    10 ≤ c5Recipient.rooms.length ∧
    c5Sender.nextId ∉ keys c5Sender.rooms ∧
    ((newDirectChat "hello" 50 c5Sender 60 c5Recipient).sender.rooms
        = c5Sender.rooms ∧
      (newDirectChat "hello" 50 c5Sender 60 c5Recipient).recipient
        = c5Recipient ∧
      (newDirectChat "hello" 50 c5Sender 60 c5Recipient).senderMsgs
        = [.chatMessageResponse .recipientChatLimit] ∧
      (newDirectChat "hello" 50 c5Sender 60 c5Recipient).recipientMsgs
        = []) :=
  ⟨by decide, by decide, by decide, by decide, by decide,
    C5_confirmed "hello" 50 c5Sender 60 c5Recipient (by decide) (by decide)
      (by decide) (by decide) (by decide)⟩

/-! ## Claim C6 -/

/-- Claim C6: the per-socket send pipeline follows the specified state
machine — the embedded `QueueMessage` and `SendMessageCallback` coincide
with the machine transcribed from the specification text (`specQueueMessage`
and `specSendCallback`): QueueMessage frames the message once and either
starts a send of just that message (setting the sending flag) or pushes it;
write completion clears the flag on an empty queue, sends the single queued
message, or batch-sends the entire queue as one write. -/
theorem C6_confirmed :
    (∀ (m : PipeMsg) (s : SendPipeState),
      QueueMessage m s = specQueueMessage m s) ∧
    (∀ (isError : Bool) (s : SendPipeState),
      SendMessageCallback isError s = specSendCallback isError s) := by
  constructor
  · intro m s
    rcases s with ⟨q, snd⟩
    cases snd <;> rfl
  · intro isError s
    rcases s with ⟨q, snd⟩
    cases isError with
    | true => rfl
    | false =>
      cases q with
      | nil => rfl
      | cons a t =>
        cases t with
        | nil => rfl
        | cons b u => simp [SendMessageCallback, specSendCallback]

/-! ## Claim C7 -/

/-- Claim C7, counterexample to the claim as stated: a socket pre-connects
while max-connections is disabled; the short-circuiting
`max_connections_enabled && ++ip_data.connections > max` never executes the
increment, so the counter stays 0 although one session from that IP is
live — the counter does not always equal the number of live sessions. -/
theorem C7_counterexample :
    IpWF [] ipBadTrace ∧
    runIpCounter ipBadTrace ≠ ((liveSessions ipBadTrace).length : Int) := by
  constructor
  · exact ⟨List.not_mem_nil 1, trivial⟩
  · decide

/-- Claim C7, amended: over any well-formed sequence of pre-connect and
disconnect events for one IP, the connection counter is non-negative after
every prefix of the trace; and whenever every pre-connect of the trace saw
max-connections enabled (so no increment was skipped by the short-circuit),
the counter equals the number of live sessions from that IP — sockets
between their pre-connect and disconnect, the cap check closing a socket
merely hastening its disconnect event.  With the cap disabled the counter
undercounts live sessions. -/
theorem C7_amended (events : List IpEvent) (hwf : IpWF [] events) :
    (∀ p q, events = p ++ q → 0 ≤ runIpCounter p) ∧
    (AllCapEnabled events →
      runIpCounter events = ((liveSessions events).length : Int)) := by
  constructor
  · intro p q hpq
    exact ipCounter_nonneg_aux p 0 le_rfl
  · intro hcap
    exact ipCounter_eq_live_aux events [] hwf hcap

/-- Claim C7 witness: a concrete trace, with the cap enabled throughout, in
which the second connection exceeds the cap (and is closed) and both
sockets then disconnect. -/
theorem C7_witness :
    IpWF [] ipTrace ∧
    AllCapEnabled ipTrace ∧
    ((∀ p q, ipTrace = p ++ q → 0 ≤ runIpCounter p) ∧
      (AllCapEnabled ipTrace →
        runIpCounter ipTrace = ((liveSessions ipTrace).length : Int))) := by
  have hwf : IpWF [] ipTrace := by
    simp [IpWF, ipTrace, List.erase]
  have hcap : AllCapEnabled ipTrace := by
    simp [AllCapEnabled, ipTrace]
  exact ⟨hwf, hcap, C7_amended ipTrace hwf⟩

/-! ## Claim C8 -/

/-- Claim C8: a change-username request whose new username equals the
session's current username (and which passes the captcha, login, rate and
validation gates that precede the comparison) is a no-op: the handler
returns the state unchanged with no broadcast, no guest-table change and no
response. -/
theorem C8_confirmed (L : CommonLimits) (validate cv : String → Bool)
    (now selfId : Nat) (st : HState) (newName : String)
    (h1 : st.sock.isCaptchaRequired = false)
    (h2 : st.sock.isLoggedIn = false)
    (h3 : ¬ (now - st.sock.lastUsernameChange < L.usernameChangeRateLimit))
    (h4 : validate newName = true)
    (h5 : st.sock.username = newName) :
    HandleMessage L validate cv now selfId st (.changeUsername newName) =
      (st, []) := by
  simp [HandleMessage, changeUsername, h1, h2, h3, h4, h5]

/-- Claim C8 witness: a guest named "sam" renaming itself to "sam". -/
theorem C8_witness :
    c8St.sock.isCaptchaRequired = false ∧
    c8St.sock.isLoggedIn = false ∧
    ¬ (9999 - c8St.sock.lastUsernameChange < exLimits.usernameChangeRateLimit) ∧
    exValidate "sam" = true ∧
    c8St.sock.username = "sam" ∧
    HandleMessage exLimits exValidate exVerify 9999 3 c8St
      (.changeUsername "sam") = (c8St, []) :=
  ⟨rfl, rfl, by decide, rfl, rfl,
    C8_confirmed exLimits exValidate exVerify 9999 3 c8St "sam" rfl rfl
      (by decide) rfl rfl⟩

/-! ## Claim C10 -/

/-- Claim C10: after a captcha-completed message, the session's
captcha-required flag is exactly the negation of the provider's
verification result — a valid token clears the requirement and an invalid
token sets it, regardless of the flag's previous value; no message is
queued. -/
theorem C10_confirmed (L : CommonLimits) (validate cv : String → Bool)
    (now selfId : Nat) (st : HState) (token : String) :
    (HandleMessage L validate cv now selfId st
        (.captchaCompleted token)).1.sock.isCaptchaRequired = !cv token ∧
    (HandleMessage L validate cv now selfId st
        (.captchaCompleted token)).2 = [] :=
  ⟨rfl, rfl⟩

/-! ## Claim C9 -/

theorem middleLoop_shape (req : PreviewRequest) (file : RecFile) :
    ∀ (fuel : Nat) (st : FileStreamState) (current : Nat)
      (res : Nat × List OutMsg),
      middleLoop req file fuel st current = some res →
      ∃ ts : List Nat, res.2 = ts.map OutMsg.preview := by
  intro fuel
  induction fuel with
  | zero =>
    intro st current res h
    simp [middleLoop] at h
  | succ n ih =>
    intro st current res h
    rw [middleLoop] at h
    split at h
    · cases h
      exact ⟨[], rfl⟩
    · split at h
      · cases h
        exact ⟨[], rfl⟩
      · split at h
        · split at h
          · cases h
            exact ⟨[_], rfl⟩
          · split at h
            · exact absurd h (by simp)
            · next c outs heq =>
                cases h
                obtain ⟨ts, hts⟩ := ih _ _ (c, outs) heq
                simp only at hts
                subst hts
                exact ⟨_ :: ts, rfl⟩
        · split at h
          · cases h
            exact ⟨[_], rfl⟩
          · split at h
            · exact absurd h (by simp)
            · next c outs heq =>
                cases h
                obtain ⟨ts, hts⟩ := ih _ _ (c, outs) heq
                simp only at hts
                subst hts
                exact ⟨_ :: ts, rfl⟩

theorem outerLoop_shape (db : RecordingDb) (req : PreviewRequest) :
    ∀ (fuel mfuel current : Nat) (acc out : List OutMsg),
      outerLoop db req fuel mfuel current acc = some out →
      ∃ (ts : List Nat) (b : Bool),
        out = acc ++ ts.map OutMsg.preview ++ [OutMsg.result b] := by
  intro fuel
  induction fuel with
  | zero =>
    intro mfuel current acc out h
    simp [outerLoop] at h
  | succ n ih =>
    intro mfuel current acc out h
    rw [outerLoop] at h
    split at h
    · cases h
      exact ⟨[], true, by simp⟩
    · split at h
      · cases h
        exact ⟨[], false, by simp⟩
      · split at h
        · split at h
          · exact ih _ _ _ _ h
          · cases h
            exact ⟨[], false, by simp⟩
        · split at h
          · exact ih _ _ _ _ h
          · split at h
            · exact absurd h (by simp)
            · next res heq =>
                obtain ⟨ts2, b, hout⟩ := ih _ _ _ _ h
                obtain ⟨ts1, hts1⟩ :=
                  middleLoop_shape req (db current).file mfuel _ current res heq
                refine ⟨ts1 ++ ts2, b, ?_⟩
                rw [hout, hts1]
                simp [List.map_append, List.append_assoc]

theorem outerLoop_total (db : RecordingDb) (req : PreviewRequest)
    (mfuel : Nat) (hprog : PreviewProgress db req mfuel) :
    ∀ (fuel current : Nat) (acc : List OutMsg),
      req.stopTime ≤ current + fuel →
      ∃ out, outerLoop db req (fuel + 1) mfuel current acc = some out := by
  obtain ⟨hopen, hheader, hmid⟩ := hprog
  intro fuel
  induction fuel with
  | zero =>
    intro current acc hle
    refine ⟨acc ++ [.result true], ?_⟩
    rw [outerLoop, if_pos (by omega)]
  | succ n ih =>
    intro current acc hle
    by_cases hstop : req.stopTime ≤ current
    · exact ⟨acc ++ [.result true], by rw [outerLoop, if_pos hstop]⟩
    · have hcur : current < req.stopTime := by omega
      rw [outerLoop, if_neg hstop]
      by_cases hpe : (db current).pathEmpty = true
      · rw [if_pos hpe]
        exact ⟨_, rfl⟩
      · have hpe2 : (db current).pathEmpty = false := by
          revert hpe
          cases (db current).pathEmpty <;> simp
        rw [if_neg hpe]
        by_cases hop : (db current).openable = true
        · rw [if_neg (not_not_intro hop)]
          by_cases hh : (db current).file.headerOk = true
          · rw [if_neg (not_not_intro hh)]
            obtain ⟨res, hres, hprogress⟩ := hmid current hcur hpe2 hop hh
            rw [hres]
            exact ih res.1 (acc ++ res.2) (by omega)
          · have hh2 : (db current).file.headerOk = false := by
              revert hh
              cases (db current).file.headerOk <;> simp
            rw [if_pos (by simp [hh2])]
            have hgt := hheader current hcur hpe2 hop hh2
            refine ih _ acc ?_
            revert hgt
            generalize (if (db current).fileStop ≠ 0 then (db current).fileStop
              else (db current).fileStart + 1) = x
            intro hgt
            omega
        · have hop2 : (db current).openable = false := by
            revert hop
            cases (db current).openable <;> simp
          rw [if_pos (by simp [hop2])]
          by_cases hfs : (db current).fileStop ≠ 0
          · rw [if_pos hfs]
            have hgt := hopen current hcur hpe2 hop2 hfs
            exact ih _ acc (by omega)
          · rw [if_neg hfs]
            exact ⟨_, rfl⟩

theorem outerLoop_c9Bad (mfuel : Nat) :
    ∀ (fuel : Nat) (acc : List OutMsg),
      outerLoop c9BadDb c9BadReq fuel mfuel 500 acc = none := by
  intro fuel
  induction fuel with
  | zero => intro acc; rfl
  | succ n ih =>
    intro acc
    rw [outerLoop]
    rw [if_neg (by decide)]
    rw [if_neg (by decide)]
    rw [if_pos (by decide)]
    rw [if_pos (by decide)]
    exact ih acc

/-- Claim C9, counterexample to the claim as stated: against a database
whose file covering cursor 500 is unopenable and has stop time 500, the
cursor update of the file-open-failure path makes no progress and the
handler loops for ever (no fuel suffices), so it is not true that every
recording-preview request terminates with a terminal result message. -/
theorem C9_counterexample : ¬ PreviewAlwaysTerminates := by
  intro h
  obtain ⟨oFuel, out, hout⟩ := h c9BadDb c9BadReq 0
  simp only [SendRecordingPreviews] at hout
  rw [if_neg (by decide)] at hout
  have h500 : c9BadReq.startTime = 500 := rfl
  rw [h500, outerLoop_c9Bad 0 oFuel []] at hout
  exact Option.noConfusion hout

/-- Claim C9, amended: the preview walk terminates and emits zero or more
RecordingPlaybackPreview messages followed by exactly one terminal
RecordingPlaybackResult, provided every file the database yields strictly
advances the cursor (`PreviewProgress`: an unopenable file's nonzero stop
time exceeds the cursor; an unreadable header's stop time — or start+1 when
the stop is zero — exceeds the cursor; a replayed file leaves the cursor
strictly larger); the file-open-failure and deserialization-error paths do
not by themselves guarantee this progress.  Moreover every terminating run,
with any fuel, has the preview-then-single-result output shape. -/
theorem C9_amended (db : RecordingDb) (req : PreviewRequest) (mfuel : Nat)
    (hprog : PreviewProgress db req mfuel) :
    (∃ out, SendRecordingPreviews db req (req.stopTime + 1) mfuel = some out) ∧
    (∀ (oFuel mFuel : Nat) (out : List OutMsg),
      SendRecordingPreviews db req oFuel mFuel = some out →
      ∃ (ts : List Nat) (b : Bool),
        out = ts.map OutMsg.preview ++ [OutMsg.result b]) := by
  constructor
  · by_cases h0 : req.startTime = 0 ∨ req.stopTime = 0
    · exact ⟨[.result false], by simp only [SendRecordingPreviews, if_pos h0]⟩
    · obtain ⟨out, hout⟩ :=
        outerLoop_total db req mfuel hprog req.stopTime req.startTime []
          (by omega)
      refine ⟨out, ?_⟩
      simp only [SendRecordingPreviews, if_neg h0]
      exact hout
  · intro oFuel mFuel out h
    simp only [SendRecordingPreviews] at h
    split at h
    · cases h
      exact ⟨[], false, rfl⟩
    · obtain ⟨ts, b, hout⟩ :=
        outerLoop_shape db req oFuel mFuel req.startTime [] out h
      exact ⟨ts, b, by simpa using hout⟩

/-- Claim C9 witness: a database that stores no recording at all satisfies
the progress conditions vacuously, and the amended theorem applies. -/
theorem C9_witness :
    PreviewProgress c9EmptyDb c9Req 0 ∧
    ((∃ out,
        SendRecordingPreviews c9EmptyDb c9Req (c9Req.stopTime + 1) 0 =
          some out) ∧
      (∀ (oFuel mFuel : Nat) (out : List OutMsg),
        SendRecordingPreviews c9EmptyDb c9Req oFuel mFuel = some out →
        ∃ (ts : List Nat) (b : Bool),
          out = ts.map OutMsg.preview ++ [OutMsg.result b])) := by
  have hp : PreviewProgress c9EmptyDb c9Req 0 := by
    refine ⟨?_, ?_, ?_⟩ <;> (intro t ht hpe; simp [c9EmptyDb] at hpe)
  exact ⟨hp, C9_amended c9EmptyDb c9Req 0 hp⟩
